import Mathlib

/-!
Shallow embedding of the Rocket.Chat channel plugin
(inbound webhook pipeline, authorization allow-list, outbound senders),
translated from the TypeScript source. JavaScript-specific semantics
(string truthiness, `||` defaulting, template interpolation of `undefined`)
are modelled explicitly by the `js*` helpers below.
-/

namespace RocketChat

/-- JavaScript `a || b` for an optional string `a`: the empty string is falsy. -/
def jsOr (a : Option String) (b : String) : String :=
  match a with
  | some s => if s = "" then b else s
  | none => b

/-- JavaScript truthiness filter on an optional string: `some ""` is falsy. -/
def jsTruthyOpt (a : Option String) : Option String :=
  match a with
  | some s => if s = "" then none else some s
  | none => none

/-- Template-literal interpolation of a possibly-undefined string. -/
def jsToString (a : Option String) : String :=
  match a with
  | some s => s
  | none => "undefined"

/-- The backtick character (used in the denial-notice text). -/
def backtickChar : Char := Char.ofNat 96

/-- JavaScript `String.prototype.trim`, modelled on the character list. -/
def jsTrim (s : String) : String :=
  ⟨((s.data.dropWhile Char.isWhitespace).reverse.dropWhile Char.isWhitespace).reverse⟩

/-- JavaScript `String.prototype.toLowerCase`, modelled on the character list. -/
def jsToLower (s : String) : String := ⟨s.data.map Char.toLower⟩

/-- Leading-prefix test, modelled on the character list. -/
def jsStartsWith (s pre : String) : Bool := pre.data.isPrefixOf s.data

/-- Drop the first `n` characters, modelled on the character list. -/
def jsDrop (s : String) (n : Nat) : String := ⟨s.data.drop n⟩

-- Authorization helpers (source: normalizeAllowFrom / isSenderAllowed)

structure NormalizedAllowFrom where
  entries : List String
  entriesLower : List String
  hasWildcard : Bool
  hasEntries : Bool
deriving Repr, DecidableEq

/-- Trimmed, non-blank entries of the raw allowFrom list
(source: `(list ?? []).map(v => String(v).trim()).filter(Boolean)`). -/
def trimmedEntries (list : Option (List String)) : List String :=
  ((list.getD []).map (fun v => jsTrim v)).filter (fun s => s != "")

/-- One application of the source regex replace `^(rocketchat|rc|rocket):` (case-insensitive);
regex alternation resolves to these ordered prefix tests. -/
def stripProviderMarker (s : String) : String :=
  if jsStartsWith (jsToLower s) "rocketchat:" then jsDrop s 11
  else if jsStartsWith (jsToLower s) "rc:" then jsDrop s 3
  else if jsStartsWith (jsToLower s) "rocket:" then jsDrop s 7
  else s

/-- Source function `normalizeAllowFrom`. -/
def normalizeAllowFrom (list : Option (List String)) : NormalizedAllowFrom :=
  let entries := trimmedEntries list
  let hasWildcard := entries.contains "*"
  let normalized := (entries.filter (fun s => s != "*")).map stripProviderMarker
  let normalizedLower := normalized.map (fun s => jsToLower s)
  { entries := normalized
    entriesLower := normalizedLower
    hasWildcard := hasWildcard
    hasEntries := decide (entries.length > 0) }

/-- Source function `isSenderAllowed`; `senderId &&` makes an empty sender id falsy. -/
def isSenderAllowed (allow : NormalizedAllowFrom) (senderId : Option String) : Bool :=
  if !allow.hasEntries then true
  else if allow.hasWildcard then true
  else
    match senderId with
    | some sid => sid != "" && allow.entriesLower.contains (jsToLower sid)
    | none => false

-- Markdown detection (source: detectMarkdown)

structure SendMessageOptions where
  useMarkdown : Option Bool := none
  atUserId : Option String := none
  sessionWebhook : Option String := none
deriving Repr, DecidableEq

/-- First character class of the source regex `^[#*>-]`. -/
def regexStartClass (c : Char) : Bool :=
  c == '#' || c == '*' || c == '>' || c == '-'

/-- Anywhere character class of the source regex `[*_&#96;#[&#93;]` spelled out. -/
def regexAnyClass (c : Char) : Bool :=
  c == '*' || c == '_' || c == backtickChar || c == '#' || c == '[' || c == ']'

/-- Test of the source regex: anchored start class or any-position class. -/
def hasMarkdownPattern (text : String) : Bool :=
  (match text.data with
   | [] => false
   | c :: _ => regexStartClass c) || text.data.any regexAnyClass

/-- Source function `detectMarkdown`. In the source the second conjunct is
`options.useMarkdown || hasMarkdown`; since the first conjunct already excludes
`useMarkdown === false`, the truthiness test equals `useMarkdown == some true`. -/
def detectMarkdown (text : String) (options : SendMessageOptions) : Bool :=
  let hasMarkdown := hasMarkdownPattern text || text.data.contains '\n'
  options.useMarkdown != some false && (options.useMarkdown == some true || hasMarkdown)

-- Configuration and inbound data (source: RocketChatConfig / RocketChatInboundMessage)

structure RocketChatConfig where
  webhookUrl : String := ""
  authToken : String := ""
  dmPolicy : Option String := none
  allowFrom : Option (List String) := none
  showThinking : Option Bool := none
deriving Repr, DecidableEq

structure InboundData where
  token : Option String := none
  bot : Bool := false
  channel_id : Option String := none
  channel_name : Option String := none
  message_id : Option String := none
  timestamp : Option String := none
  user_id : Option String := none
  user_name : Option String := none
  text : Option String := none
deriving Repr, DecidableEq

-- Outbound senders (source: sendProactive / sendBySession / sendMessage)

/-- Opaque provider HTTP-response data. -/
abbrev AxData := String

/-- The observable shape of one outbound `axios` POST issued by the module. -/
structure AxiosReq where
  url : String
  bodyText : String
deriving Repr, DecidableEq

structure DeliveryResult where
  ok : Bool
  error : Option String := none
  data : Option AxData := none
deriving Repr, DecidableEq

inductive SendPath where
  | session
  | proactive
deriving Repr, DecidableEq

/-- Source function `sendProactive`: one axios POST of `{text}` to the configured
webhookUrl (the markdown branch reassigns the same text, a no-op; the `target`
argument is only logged, never used in the request). -/
def sendProactive (oracle : AxiosReq → Except String AxData) (config : RocketChatConfig)
    (target : String) (text : String) (options : SendMessageOptions) : Except String AxData :=
  let _ := target
  let _ := detectMarkdown text options
  oracle { url := config.webhookUrl, bodyText := text }

/-- Body text built by `sendBySession`: when markdown is detected the mention
suffix is appended inside the markdown branch AND once more unconditionally. -/
def sessionText (text : String) (options : SendMessageOptions) : String :=
  let useMarkdown := detectMarkdown text options
  let base :=
    if useMarkdown then
      match jsTruthyOpt options.atUserId with
      | some u => text ++ " @" ++ u
      | none => text
    else text
  match jsTruthyOpt options.atUserId with
  | some u => base ++ " @" ++ u
  | none => base

/-- The axios request issued by `sendBySession`: always targets `config.webhookUrl`
(per the source comment, the sessionWebhook URL is not used as the send target). -/
def sessionRequest (config : RocketChatConfig) (text : String)
    (options : SendMessageOptions) : AxiosReq :=
  { url := config.webhookUrl, bodyText := sessionText text options }

/-- Source function `sendBySession` (the `sessionWebhook` argument is unused
in the request it issues). -/
def sendBySession (oracle : AxiosReq → Except String AxData) (config : RocketChatConfig)
    (sessionWebhook : String) (text : String) (options : SendMessageOptions) :
    Except String AxData :=
  let _ := sessionWebhook
  oracle (sessionRequest config text options)

/-- Source function `sendMessage`: session path when `options.sessionWebhook` is
truthy, else proactive; the surrounding try/catch maps a provider failure to
`{ok:false, error}`. The second component records which branch ran. -/
def sendMessage (oracle : AxiosReq → Except String AxData) (config : RocketChatConfig)
    (conversationId : String) (text : String) (options : SendMessageOptions) :
    DeliveryResult × SendPath :=
  match jsTruthyOpt options.sessionWebhook with
  | some sw =>
      match sendBySession oracle config sw text options with
      | .ok _ => ({ ok := true }, .session)
      | .error e => ({ ok := false, error := some e }, .session)
  | none =>
      match sendProactive oracle config conversationId text options with
      | .ok d => ({ ok := true, data := some d }, .proactive)
      | .error e => ({ ok := false, error := some e }, .proactive)

-- Inbound content extraction and message handling
-- (source: extractMessageContent / handleRocketChatMessage)

structure MessageContent where
  text : String
  messageType : String
deriving Repr, DecidableEq

/-- Source function `extractMessageContent`: `data.text?.trim() || ''`. -/
def extractMessageContent (data : InboundData) : MessageContent :=
  { text := match data.text with
            | some t => jsTrim t
            | none => ""
    messageType := "text" }

/-- Source line 234: `!data.channel_name || data.channel_name.startsWith('@')`;
an empty channel name is falsy, hence classified direct. -/
def isDirectMessage (channel_name : Option String) : Bool :=
  match channel_name with
  | none => true
  | some s => s == "" || jsStartsWith s "@"

/-- Text of the access-denied notice (template literal of the source, line 258). -/
def denialText (senderId : Option String) : String :=
  "⛔ Access restricted\n\nYour user ID: `" ++ jsToString senderId ++
    "`\n\nPlease contact administrator to add this ID to the allowlist."

structure HandleParams where
  data : InboundData
  rocketchatConfig : RocketChatConfig
  sessionWebhook : String := ""
deriving Repr, DecidableEq

/-- One outbound send attempted by the handler (denial / thinking notices). -/
structure SendReq where
  toId : Option String := none
  text : String := ""
  sessionWebhook : Option String := none
  atUserId : Option String := none
deriving Repr, DecidableEq

/-- The locally-computed fields the handler passes to
`rt.channel.reply.finalizeInboundContext` (the envelope body itself is built
by the external host formatter and is not modelled). -/
structure CtxArgs where
  RawBody : String := ""
  From : Option String := none
  To : Option String := none
  ChatType : String := ""
  ConversationLabel : String := ""
  GroupSubject : Option String := none
  SenderName : String := ""
  SenderId : Option String := none
  MessageSid : Option String := none
  CommandAuthorized : Bool := true
deriving Repr, DecidableEq

/-- Observable outcome of one `handleRocketChatMessage` run. -/
structure HandleResult where
  authEvaluated : Bool := false
  denialSends : List String := []
  builtCtx : Option CtxArgs := none
  sessionRecorded : Bool := false
  thinkingSends : List SendReq := []
  dispatched : Bool := false
deriving Repr, DecidableEq

/-- Continuation of `handleRocketChatMessage` after the authorization gate
(source lines 279-381): envelope construction, session record, thinking
notice, reply dispatch. -/
def buildCtxAndEffects (p : HandleParams) (authEvaluated : Bool) : HandleResult :=
  let data := p.data
  let content := extractMessageContent data
  let isDirect := isDirectMessage data.channel_name
  let senderId := data.user_id
  let senderName := jsOr data.user_name "Unknown"
  let channelId := data.channel_id
  let channelName := jsOr data.channel_name "Direct Message"
  let fromLabel :=
    if isDirect then senderName ++ " (" ++ jsToString senderId ++ ")"
    else channelName ++ " - " ++ senderName
  let toId := if isDirect then senderId else channelId
  let ctx : CtxArgs :=
    { RawBody := content.text
      From := toId
      To := toId
      ChatType := if isDirect then "direct" else "group"
      ConversationLabel := fromLabel
      GroupSubject := if isDirect then none else some channelName
      SenderName := senderName
      SenderId := senderId
      MessageSid := data.message_id
      CommandAuthorized := true }
  let thinking : List SendReq :=
    if p.rocketchatConfig.showThinking != some false then
      [{ toId := toId
         text := "🤔 Thinking, please wait..."
         sessionWebhook := some p.sessionWebhook
         atUserId := if isDirect then none else senderId }]
    else []
  { authEvaluated := authEvaluated
    denialSends := []
    builtCtx := some ctx
    sessionRecorded := true
    thinkingSends := thinking
    dispatched := true }

/-- Source function `handleRocketChatMessage`: token gate, bot gate, empty-text
gate, dm allowlist gate (with best-effort denial notice whose failure is
caught), then the processing continuation. -/
def handleRocketChatMessage (p : HandleParams)
    (sendOracle : SendReq → Except String Unit) : HandleResult :=
  if p.data.token ≠ some p.rocketchatConfig.authToken then {}
  else if p.data.bot then {}
  else if (extractMessageContent p.data).text = "" then {}
  else
    let isDirect := isDirectMessage p.data.channel_name
    let dmPolicy := jsOr p.rocketchatConfig.dmPolicy "open"
    if isDirect && dmPolicy == "allowlist" then
      let allow := normalizeAllowFrom (some (p.rocketchatConfig.allowFrom.getD []))
      if isSenderAllowed allow p.data.user_id then
        buildCtxAndEffects p true
      else
        let res : HandleResult :=
          { authEvaluated := true, denialSends := [denialText p.data.user_id] }
        -- try/catch around the denial send: success and failure both fall
        -- through to the same `return` (the failure is only logged)
        match sendOracle { text := denialText p.data.user_id
                           sessionWebhook := some p.sessionWebhook } with
        | .ok _ => res
        | .error _ => res
    else
      buildCtxAndEffects p false

-- Webhook ingress (source: gateway.startAccount handler, lines 523-654)

/-- Structural model of the response bodies the handler serializes. -/
inductive RespBody where
  | text (s : String)
  | jsonError (e : String)
  | jsonAck (t : String) (response_type : String)
deriving Repr, DecidableEq

structure WebhookResponse where
  status : Nat
  body : RespBody
  allowHeader : Option String := none
  scheduledProcessing : Bool := false
deriving Repr, DecidableEq

/-- The fields of the parsed webhook body the handler inspects. -/
structure WebhookBody where
  token : Option String := none
  user_id : Option String := none
  text : Option String := none
deriving Repr, DecidableEq

/-- Result of the content-type-directed body parsing (JSON / form / fallback);
the parsing itself uses external library calls and is modelled as an input. -/
inductive ParseOutcome where
  | failure
  | success (b : WebhookBody)
deriving Repr, DecidableEq

/-- JavaScript falsiness of an optional string field (`!x`). -/
def jsFalsy (s : Option String) : Bool :=
  match s with
  | none => true
  | some v => v == ""

/-- The webhook route handler's decision, translated from the source control
flow. `scheduledProcessing` records that the zero-delay detached processing
task was scheduled after the response was sent. -/
def webhookHandle (method : String) (parse : ParseOutcome) (authToken : String) :
    WebhookResponse :=
  if method == "GET" then
    { status := 200, body := .text "Rocket.Chat webhook is active" }
  else if method != "POST" then
    { status := 405, body := .jsonError "Method Not Allowed", allowHeader := some "GET, POST" }
  else
    match parse with
    | .failure => { status := 400, body := .jsonError "Bad Request: Invalid JSON" }
    | .success b =>
      if b.token != some authToken then
        { status := 401, body := .jsonError "Unauthorized: Invalid token" }
      else if jsFalsy b.user_id || jsFalsy b.text then
        { status := 400, body := .jsonError "Bad Request: Missing required fields" }
      else
        { status := 200, body := .jsonAck "" "ephemeral", scheduledProcessing := true }

-- Reply-block delivery callback (source: dispatcherOptions.deliver, lines 364-378)

structure BlockPayload where
  markdown : Option String := none
  text : Option String := none
deriving Repr, DecidableEq

/-- What one deliver invocation did: the text it sent together with the
`sendMessage` result (which the source ignores), or nothing for empty blocks. -/
structure DeliverOutcome where
  sent : Option (String × DeliveryResult) := none
deriving Repr, DecidableEq

/-- The deliver callback. Its source try/catch can only catch an exception
thrown by `sendMessage`, and `sendMessage` never throws (it returns a
`DeliveryResult`), so the translation never produces `.error`. -/
def deliverBlock (oracle : AxiosReq → Except String AxData) (config : RocketChatConfig)
    (toId : Option String) (sessionWebhook : String) (isDirect : Bool)
    (senderId : Option String) (payload : BlockPayload) :
    Except String DeliverOutcome :=
  let textToSend :=
    match jsTruthyOpt payload.markdown with
    | some m => some m
    | none => jsTruthyOpt payload.text
  match textToSend with
  | none => .ok {}
  | some t =>
      let r := (sendMessage oracle config (jsToString toId) t
        { sessionWebhook := some sessionWebhook
          atUserId := if isDirect then none else senderId }).1
      .ok { sent := some (t, r) }

-- Decision table of the amended webhook claim (stated from the claim's words)

/-- Decision table of the amended C2 claim, stated from its words: GET yields
200 with the active-notice text; POST with an unparseable body yields 400,
with a token mismatch 401, with a missing-or-empty user_id or text 400, and
otherwise 200 with the ephemeral ack and the processing pipeline scheduled as
a detached task; any other method yields 405 with an Allow header. -/
def webhookClaimAmended (method : String) (parse : ParseOutcome) (authToken : String) :
    WebhookResponse :=
  if method == "GET" then
    { status := 200, body := .text "Rocket.Chat webhook is active" }
  else if method == "POST" then
    match parse with
    | .failure => { status := 400, body := .jsonError "Bad Request: Invalid JSON" }
    | .success b =>
      if b.token ≠ some authToken then
        { status := 401, body := .jsonError "Unauthorized: Invalid token" }
      else if b.user_id = none ∨ b.user_id = some "" ∨ b.text = none ∨ b.text = some "" then
        { status := 400, body := .jsonError "Bad Request: Missing required fields" }
      else
        { status := 200, body := .jsonAck "" "ephemeral", scheduledProcessing := true }
  else
    { status := 405, body := .jsonError "Method Not Allowed", allowHeader := some "GET, POST" }

-- Concrete fixtures used by witnesses and counterexamples

def oracleOkData : AxiosReq → Except String AxData := fun _ => .ok "resp"

def oracleBoom : AxiosReq → Except String AxData := fun _ => .error "boom"

def oracleOkUnit : SendReq → Except String Unit := fun _ => .ok ()

def cfgX : RocketChatConfig := { webhookUrl := "https://rc.example/hook", authToken := "T" }

def optsEmptySW : SendMessageOptions := { sessionWebhook := some "" }

/-- Scenario B of the spec: dmPolicy allowlist, allowFrom ["u2"], sender u1. -/
def pDenied : HandleParams :=
  { data := { token := some "T", text := some "hi", user_id := some "u1",
              user_name := some "Alice" }
    rocketchatConfig := { authToken := "T", dmPolicy := some "allowlist",
                          allowFrom := some ["u2"] }
    sessionWebhook := "https://rc.example/inbound" }

def pWhitespace : HandleParams :=
  { data := { token := some "T", text := some "   ", user_id := some "u1" }
    rocketchatConfig := { authToken := "T" } }

def pBot : HandleParams :=
  { data := { token := some "T", bot := true, text := some "hi" }
    rocketchatConfig := { authToken := "T" } }

def pGroup : HandleParams :=
  { data := { token := some "T", text := some "hi", user_id := some "u1",
              user_name := some "Alice", channel_name := some "general",
              channel_id := some "c9" }
    rocketchatConfig := { authToken := "T" }
    sessionWebhook := "https://rc.example/inbound" }

-- Shared helper lemmas

theorem jsTruthyOpt_eq_some (a : Option String) (s : String) :
    jsTruthyOpt a = some s ↔ a = some s ∧ s ≠ "" := by
  cases a with
  | none => simp [jsTruthyOpt]
  | some v =>
      by_cases hv : v = "" <;> simp [jsTruthyOpt, hv] <;> aesop

theorem jsFalsy_iff (s : Option String) : jsFalsy s = true ↔ (s = none ∨ s = some "") := by
  cases s <;> simp [jsFalsy, beq_iff_eq]

theorem hasMarkdownPattern_iff (text : String) :
    hasMarkdownPattern text = true ↔
      (∃ c, text.data.head? = some c ∧ (c = '#' ∨ c = '*' ∨ c = '>' ∨ c = '-')) ∨
      ∃ c ∈ text.data, c = '*' ∨ c = '_' ∨ c = backtickChar ∨ c = '#' ∨ c = '[' ∨ c = ']' := by
  unfold hasMarkdownPattern
  rw [Bool.or_eq_true, List.any_eq_true]
  have h2 : ∀ c, regexAnyClass c = true ↔
      (c = '*' ∨ c = '_' ∨ c = backtickChar ∨ c = '#' ∨ c = '[' ∨ c = ']') := by
    intro c; simp [regexAnyClass, Bool.or_eq_true, beq_iff_eq, or_assoc]
  cases h : text.data with
  | nil => simp [h2]
  | cons c cs => simp [regexStartClass, Bool.or_eq_true, beq_iff_eq, h2, or_assoc]

-- C1: allow-list evaluation

/-- C1 (amended): the allow-list check allows a sender exactly when the list has
no non-blank entries, or contains a wildcard entry, or the sender id is present,
non-empty, and matches some non-wildcard entry case-insensitively after one
leading provider marker is stripped from that entry. -/
theorem allowlist_check_amended (list : Option (List String)) (senderId : Option String) :
    isSenderAllowed (normalizeAllowFrom list) senderId = true ↔
      (trimmedEntries list = [] ∨ "*" ∈ trimmedEntries list ∨
       ∃ s e, senderId = some s ∧ s ≠ "" ∧ e ∈ trimmedEntries list ∧ e ≠ "*" ∧
         jsToLower (stripProviderMarker e) = jsToLower s) := by
  unfold isSenderAllowed normalizeAllowFrom
  by_cases hE : trimmedEntries list = []
  · simp [hE]
  · by_cases hW : "*" ∈ trimmedEntries list
    · simp [hE, hW, List.contains, List.elem_iff, List.length_pos]
    · cases senderId with
      | none =>
          simp [hE, hW, List.contains, List.elem_iff, List.length_pos]
      | some s =>
          simp [hE, hW, List.contains, List.elem_iff, List.length_pos, List.mem_map,
            List.mem_filter, bne_iff_ne, Bool.and_eq_true]
          tauto

/-- C1 counterexample: allowFrom = ["rc:"] (an entry whose provider marker strips
to the empty string) with an empty sender id satisfies the claim's match
condition, yet the code denies the sender. -/
theorem allowlist_claim_counterexample :
    isSenderAllowed (normalizeAllowFrom (some ["rc:"])) (some "") = false ∧
    "rc:" ∈ trimmedEntries (some ["rc:"]) ∧ ("rc:" : String) ≠ "*" ∧
    jsToLower (stripProviderMarker "rc:") = jsToLower "" := by
  refine ⟨by decide, by decide, by decide, by decide⟩

-- C2: webhook ingress decision order

/-- C2 (amended): the webhook handler's decision equals the amended claim's
decision table, in which a missing OR empty (falsy) user_id or text is
rejected with 400. -/
theorem webhook_decision_amended (method : String) (parse : ParseOutcome) (authToken : String) :
    webhookHandle method parse authToken = webhookClaimAmended method parse authToken := by
  unfold webhookHandle webhookClaimAmended
  by_cases h1 : method = "GET"
  · simp [h1]
  · by_cases h2 : method = "POST"
    · rcases parse with _ | b
      · simp [h1, h2]
      · by_cases ht : b.token = some authToken
        · by_cases hu : b.user_id = none ∨ b.user_id = some "" ∨ b.text = none ∨ b.text = some ""
          · have hb : (jsFalsy b.user_id || jsFalsy b.text) = true := by
              rw [Bool.or_eq_true, jsFalsy_iff, jsFalsy_iff]; tauto
            simp [h1, h2, ht, hu, hb]
          · have hb : ¬((jsFalsy b.user_id || jsFalsy b.text) = true) := by
              rw [Bool.or_eq_true, jsFalsy_iff, jsFalsy_iff]; tauto
            simp [h1, h2, ht, hu, hb]
        · simp [h1, h2, ht]
    · simp [h1, h2]

/-- C2 counterexample: a POST whose parsed body has the correct token, a
non-missing but empty user_id, and a non-empty text is rejected with 400,
where the claim as stated predicts the 200 ephemeral ack. -/
theorem webhook_claim_counterexample :
    webhookHandle "POST" (.success { token := some "T", user_id := some "", text := some "hi" }) "T" =
      { status := 400, body := .jsonError "Bad Request: Missing required fields" } ∧
    (some "" : Option String) ≠ none := by
  refine ⟨by decide, by decide⟩

-- C3: sendMessage path selection and error translation

/-- C3 (amended): `sendMessage` takes the session path exactly when
`options.sessionWebhook` is present AND non-empty; a provider-call failure is
translated into an `{ok := false, error}` result and a success into an
`ok := true` result, never a raised error. -/
theorem sendMessage_amended (oracle : AxiosReq → Except String AxData)
    (config : RocketChatConfig) (conv text : String) (opts : SendMessageOptions) :
    ((sendMessage oracle config conv text opts).2 = SendPath.session ↔
      ∃ s, opts.sessionWebhook = some s ∧ s ≠ "") ∧
    (∀ e, (∀ req, oracle req = .error e) →
      (sendMessage oracle config conv text opts).1 =
        { ok := false, error := some e, data := none }) ∧
    (∀ d, (∀ req, oracle req = .ok d) →
      (sendMessage oracle config conv text opts).1.ok = true) := by
  refine ⟨?_, ?_, ?_⟩
  · unfold sendMessage
    cases hs : jsTruthyOpt opts.sessionWebhook with
    | none =>
        cases h : sendProactive oracle config conv text opts <;>
          · simp only [h]
            constructor
            · intro hp; exact absurd hp (by simp)
            · rintro ⟨s, hw, hne⟩
              rw [show jsTruthyOpt opts.sessionWebhook = some s from
                (jsTruthyOpt_eq_some _ _).mpr ⟨hw, hne⟩] at hs
              exact absurd hs (by simp)
    | some sw =>
        cases h : sendBySession oracle config sw text opts <;>
          · simp only [h]
            constructor
            · intro _; exact ⟨sw, (jsTruthyOpt_eq_some _ _).mp hs⟩
            · intro _; trivial
  · intro e he
    unfold sendMessage
    cases hs : jsTruthyOpt opts.sessionWebhook <;>
      simp [sendBySession, sendProactive, he]
  · intro d hd
    unfold sendMessage
    cases hs : jsTruthyOpt opts.sessionWebhook <;>
      simp [sendBySession, sendProactive, hd]

/-- C3 witness: with an oracle that always fails with "boom" and no session
webhook, the result is `{ok := false, error := "boom"}` and the session-path
characterization holds. -/
theorem sendMessage_amended_witness :
    ((sendMessage oracleBoom cfgX "conv1" "hello" {}).2 = SendPath.session ↔
      ∃ s, ({} : SendMessageOptions).sessionWebhook = some s ∧ s ≠ "") ∧
    (sendMessage oracleBoom cfgX "conv1" "hello" {}).1 =
      { ok := false, error := some "boom", data := none } := by
  have h := sendMessage_amended oracleBoom cfgX "conv1" "hello" {}
  exact ⟨h.1, h.2.1 "boom" (fun _ => rfl)⟩

/-- C3 counterexample: with `sessionWebhook = some ""` (present but empty) the
proactive path is taken, where the claim as stated predicts the session path. -/
theorem sendMessage_claim_counterexample :
    (sendMessage oracleOkData cfgX "conv1" "hello" optsEmptySW).2 = SendPath.proactive ∧
    optsEmptySW.sessionWebhook ≠ none := by
  refine ⟨rfl, by decide⟩

-- C4: direct-message denial path

/-- C4: under dmPolicy allowlist, a processed direct message from a disallowed
sender triggers exactly one denial notice containing the sender's user id, and
the handler then stops: no envelope, no session record, no thinking notice, no
dispatch; the outcome is identical whatever the denial send's own result is. -/
theorem dm_denial (p : HandleParams) (o : SendReq → Except String Unit) (uid : String)
    (htok : p.data.token = some p.rocketchatConfig.authToken)
    (hbot : p.data.bot = false)
    (htxt : (extractMessageContent p.data).text ≠ "")
    (hdir : isDirectMessage p.data.channel_name = true)
    (hpol : p.rocketchatConfig.dmPolicy = some "allowlist")
    (huid : p.data.user_id = some uid)
    (hden : isSenderAllowed
      (normalizeAllowFrom (some (p.rocketchatConfig.allowFrom.getD [])))
      p.data.user_id = false) :
    (handleRocketChatMessage p o).denialSends = [denialText (some uid)] ∧
    (∃ a b, denialText (some uid) = a ++ uid ++ b) ∧
    (handleRocketChatMessage p o).builtCtx = none ∧
    (handleRocketChatMessage p o).sessionRecorded = false ∧
    (handleRocketChatMessage p o).dispatched = false ∧
    (handleRocketChatMessage p o).thinkingSends = [] ∧
    (∀ o₂ : SendReq → Except String Unit,
      handleRocketChatMessage p o₂ = handleRocketChatMessage p o) := by
  have hmain : ∀ o' : SendReq → Except String Unit,
      handleRocketChatMessage p o' =
        { authEvaluated := true, denialSends := [denialText p.data.user_id] } := by
    intro o'
    unfold handleRocketChatMessage
    rw [if_neg (by simp [htok]), if_neg (by simp [hbot]), if_neg htxt]
    simp only [hdir, hpol, jsOr]
    rw [if_pos (by simp), if_neg (by simp [hden])]
    cases o' { text := denialText p.data.user_id
               sessionWebhook := some p.sessionWebhook } <;> rfl
  refine ⟨by rw [hmain, huid], ⟨"⛔ Access restricted\n\nYour user ID: `", _, rfl⟩,
    by rw [hmain], by rw [hmain], by rw [hmain], by rw [hmain], fun o₂ => by rw [hmain, hmain]⟩

/-- C4 witness: the spec's Scenario B (sender u1, allowFrom ["u2"]) instantiates
the denial theorem. -/
theorem dm_denial_witness :
    (handleRocketChatMessage pDenied oracleOkUnit).denialSends = [denialText (some "u1")] ∧
    (∃ a b, denialText (some "u1") = a ++ "u1" ++ b) ∧
    (handleRocketChatMessage pDenied oracleOkUnit).builtCtx = none ∧
    (handleRocketChatMessage pDenied oracleOkUnit).sessionRecorded = false ∧
    (handleRocketChatMessage pDenied oracleOkUnit).dispatched = false ∧
    (handleRocketChatMessage pDenied oracleOkUnit).thinkingSends = [] ∧
    (∀ o₂ : SendReq → Except String Unit,
      handleRocketChatMessage pDenied o₂ = handleRocketChatMessage pDenied oracleOkUnit) :=
  dm_denial pDenied oracleOkUnit "u1" rfl rfl (by decide) (by decide) rfl rfl (by decide)

-- C5: reply-block delivery callback

/-- C5 (amended): the deliver callback always completes without raising; it
sends the markdown text when non-empty, else the plain text when non-empty,
and skips blocks whose markdown and text are both missing or empty; the
`sendMessage` result — including a failed delivery — is recorded but ignored,
so a provider failure is never re-raised to the host dispatcher. -/
theorem deliver_blocks_amended (oracle : AxiosReq → Except String AxData)
    (config : RocketChatConfig) (toId : Option String) (sw : String) (isDirect : Bool)
    (senderId : Option String) (payload : BlockPayload) :
    ∃ out, deliverBlock oracle config toId sw isDirect senderId payload = .ok out ∧
      (∀ m, payload.markdown = some m → m ≠ "" → ∃ r, out.sent = some (m, r)) ∧
      ((payload.markdown = none ∨ payload.markdown = some "") →
        ∀ t, payload.text = some t → t ≠ "" → ∃ r, out.sent = some (t, r)) ∧
      ((payload.markdown = none ∨ payload.markdown = some "") →
        (payload.text = none ∨ payload.text = some "") → out.sent = none) := by
  unfold deliverBlock
  cases hm : jsTruthyOpt payload.markdown with
  | some m =>
      refine ⟨_, rfl, ?_, ?_, ?_⟩
      · intro m' hm' hne
        rw [(jsTruthyOpt_eq_some _ _).mpr ⟨hm', hne⟩] at hm
        exact ⟨_, by rw [Option.some_inj.mp hm]⟩
      · intro hnone t ht hne
        rcases hnone with h | h <;> simp [h, jsTruthyOpt] at hm
      · intro hnone _
        rcases hnone with h | h <;> simp [h, jsTruthyOpt] at hm
  | none =>
      cases htx : jsTruthyOpt payload.text with
      | some t =>
          refine ⟨_, rfl, ?_, ?_, ?_⟩
          · intro m hm' hne
            rw [(jsTruthyOpt_eq_some _ _).mpr ⟨hm', hne⟩] at hm
            exact absurd hm (by simp)
          · intro _ t' ht' hne
            rw [(jsTruthyOpt_eq_some _ _).mpr ⟨ht', hne⟩] at htx
            exact ⟨_, by rw [Option.some_inj.mp htx]⟩
          · intro _ hnone
            rcases hnone with h | h <;> simp [h, jsTruthyOpt] at htx
      | none =>
          refine ⟨_, rfl, ?_, ?_, ?_⟩
          · intro m hm' hne
            rw [(jsTruthyOpt_eq_some _ _).mpr ⟨hm', hne⟩] at hm
            exact absurd hm (by simp)
          · intro _ t ht hne
            rw [(jsTruthyOpt_eq_some _ _).mpr ⟨ht, hne⟩] at htx
            exact absurd htx (by simp)
          · intro _ _; rfl

/-- C5 witness: a block with both markdown and plain text delivers the markdown
text once, successfully. -/
theorem deliver_blocks_amended_witness :
    ∃ out, deliverBlock oracleOkData cfgX (some "u1") "https://rc.example/session" true none
        { markdown := some "md", text := some "pt" } = .ok out ∧
      ∃ r, out.sent = some ("md", r) := by
  obtain ⟨out, h1, h2, _, _⟩ := deliver_blocks_amended oracleOkData cfgX (some "u1")
    "https://rc.example/session" true none { markdown := some "md", text := some "pt" }
  exact ⟨out, h1, h2 "md" rfl (by decide)⟩

/-- C5 counterexample: when the provider call fails, the deliver callback still
returns normally (an `ok` outcome recording the `{ok := false}` delivery
result); the failure is not re-raised, where the claim says it is. -/
theorem deliver_failure_counterexample :
    deliverBlock oracleBoom cfgX (some "u1") "https://rc.example/session" true none
        { text := some "hello" } =
      .ok { sent := some ("hello", { ok := false, error := some "boom", data := none }) } := rfl

-- C6: sendBySession target and mention suffix

/-- C6: every `sendBySession` request targets the configured webhookUrl and is
independent of the sessionWebhook argument; however, for a markdown-detected
text the mention suffix for a supplied atUserId is appended twice (evaluated
here at the failing input `"# hi"` with atUserId `"u1"`). -/
theorem session_mention_bug :
    (∀ (config : RocketChatConfig) (text : String) (opts : SendMessageOptions),
        (sessionRequest config text opts).url = config.webhookUrl) ∧
    (∀ (oracle : AxiosReq → Except String AxData) (config : RocketChatConfig)
        (sw sw' text : String) (opts : SendMessageOptions),
        sendBySession oracle config sw text opts = sendBySession oracle config sw' text opts) ∧
    sessionText "# hi" { atUserId := some "u1" } = "# hi @u1 @u1" := by
  refine ⟨fun _ _ _ => rfl, fun _ _ _ _ _ _ => rfl, by decide⟩

-- C7: markdown detection

theorem detectMarkdown_claim_aux (text : String) (opts : SendMessageOptions) :
    detectMarkdown text opts = true ↔
      (opts.useMarkdown ≠ some false ∧
        (opts.useMarkdown = some true ∨
         (∃ c, text.data.head? = some c ∧ (c = '#' ∨ c = '*' ∨ c = '>' ∨ c = '-')) ∨
         (∃ c ∈ text.data, c = '*' ∨ c = '_' ∨ c = backtickChar ∨ c = '#' ∨ c = '[' ∨ c = ']') ∨
         '\n' ∈ text.data)) := by
  simp only [detectMarkdown, Bool.and_eq_true, Bool.or_eq_true, bne_iff_ne, beq_iff_eq,
    hasMarkdownPattern_iff, List.contains, List.elem_iff, or_assoc]

/-- C7: `detectMarkdown` returns false whenever `useMarkdown` is explicitly
false; otherwise it returns true iff `useMarkdown` is true, or the text starts
with one of `#`, `*`, `>`, `-`, or contains one of `*`, `_`, backtick, `#`,
`[`, `]`, or contains a newline; with no explicit option, "hello" yields false
and "# hello\nworld" yields true. -/
theorem detectMarkdown_spec :
    (∀ (text : String) (opts : SendMessageOptions),
      detectMarkdown text opts = true ↔
        (opts.useMarkdown ≠ some false ∧
          (opts.useMarkdown = some true ∨
           (∃ c, text.data.head? = some c ∧ (c = '#' ∨ c = '*' ∨ c = '>' ∨ c = '-')) ∨
           (∃ c ∈ text.data, c = '*' ∨ c = '_' ∨ c = backtickChar ∨ c = '#' ∨ c = '[' ∨ c = ']') ∨
           '\n' ∈ text.data))) ∧
    detectMarkdown "hello" {} = false ∧
    detectMarkdown "# hello\nworld" {} = true := by
  exact ⟨detectMarkdown_claim_aux, by decide, by decide⟩

-- C8: whitespace-only text is a silent no-op

/-- C8: an inbound payload whose text trims to the empty string makes the
handler a complete no-op: no envelope, no session record, no outbound send of
any kind, no authorization evaluation. -/
theorem empty_text_noop (p : HandleParams) (o : SendReq → Except String Unit) (s : String)
    (h1 : p.data.text = some s) (h2 : jsTrim s = "") :
    handleRocketChatMessage p o = {} := by
  have hc : (extractMessageContent p.data).text = "" := by
    simp [extractMessageContent, h1, h2]
  unfold handleRocketChatMessage
  by_cases ht : p.data.token = some p.rocketchatConfig.authToken <;>
    by_cases hb : p.data.bot <;> simp [ht, hb, hc]

/-- C8 witness: a whitespace-only payload is a no-op. -/
theorem empty_text_noop_witness : handleRocketChatMessage pWhitespace oracleOkUnit = {} :=
  empty_text_noop pWhitespace oracleOkUnit "   " rfl (by decide)

-- C9: direct/group classification and envelope addressing

/-- C9 (amended): a message is classified direct exactly when the channel name
is absent, empty, or starts with `@`; for every message reaching envelope
construction, From and To are both the sender's user id (direct) or the
channel id (group), and the conversation label is
"senderName (senderId)" for direct and "channelName - senderName" for group. -/
theorem envelope_addressing_amended :
    (∀ cn : Option String, isDirectMessage cn = true ↔
        (cn = none ∨ cn = some "" ∨ ∃ s, cn = some s ∧ jsStartsWith s "@" = true)) ∧
    (∀ (p : HandleParams) (o : SendReq → Except String Unit),
      p.data.token = some p.rocketchatConfig.authToken →
      p.data.bot = false →
      (extractMessageContent p.data).text ≠ "" →
      (isDirectMessage p.data.channel_name = true →
        jsOr p.rocketchatConfig.dmPolicy "open" = "allowlist" →
        isSenderAllowed (normalizeAllowFrom (some (p.rocketchatConfig.allowFrom.getD [])))
          p.data.user_id = true) →
      ∃ ctx, (handleRocketChatMessage p o).builtCtx = some ctx ∧
        ctx.From = ctx.To ∧
        ctx.To = (if isDirectMessage p.data.channel_name then p.data.user_id
                  else p.data.channel_id) ∧
        ctx.ChatType = (if isDirectMessage p.data.channel_name then "direct" else "group") ∧
        ctx.ConversationLabel =
          (if isDirectMessage p.data.channel_name then
            jsOr p.data.user_name "Unknown" ++ " (" ++ jsToString p.data.user_id ++ ")"
          else jsOr p.data.channel_name "Direct Message" ++ " - " ++
            jsOr p.data.user_name "Unknown")) := by
  constructor
  · intro cn
    cases cn with
    | none => simp [isDirectMessage]
    | some s =>
        by_cases hs : s = "" <;> simp [isDirectMessage, hs, Bool.or_eq_true, beq_iff_eq]
  · intro p o htok hbot htxt hallow
    have hbuild : ∀ ae, ∃ ctx, (buildCtxAndEffects p ae).builtCtx = some ctx ∧
        ctx.From = ctx.To ∧
        ctx.To = (if isDirectMessage p.data.channel_name then p.data.user_id
                  else p.data.channel_id) ∧
        ctx.ChatType = (if isDirectMessage p.data.channel_name then "direct" else "group") ∧
        ctx.ConversationLabel =
          (if isDirectMessage p.data.channel_name then
            jsOr p.data.user_name "Unknown" ++ " (" ++ jsToString p.data.user_id ++ ")"
          else jsOr p.data.channel_name "Direct Message" ++ " - " ++
            jsOr p.data.user_name "Unknown") := by
      intro ae
      refine ⟨_, rfl, rfl, rfl, rfl, ?_⟩
      by_cases hd : isDirectMessage p.data.channel_name = true <;>
        simp [buildCtxAndEffects, hd]
    unfold handleRocketChatMessage
    rw [if_neg (by simp [htok]), if_neg (by simp [hbot]), if_neg htxt]
    by_cases hgate : (isDirectMessage p.data.channel_name &&
        (jsOr p.rocketchatConfig.dmPolicy "open" == "allowlist")) = true
    · rw [if_pos hgate]
      rw [Bool.and_eq_true, beq_iff_eq] at hgate
      rw [if_pos (hallow hgate.1 hgate.2)]
      exact hbuild true
    · rw [if_neg hgate]
      exact hbuild false

/-- C9 witness: a group message (channel "general") yields an envelope whose
From and To are the channel id and whose label is "general - Alice". -/
theorem envelope_addressing_witness :
    ∃ ctx, (handleRocketChatMessage pGroup oracleOkUnit).builtCtx = some ctx ∧
      ctx.From = ctx.To ∧ ctx.To = some "c9" ∧ ctx.ChatType = "group" ∧
      ctx.ConversationLabel = "general - Alice" := by
  obtain ⟨ctx, h1, h2, h3, h4, h5⟩ :=
    envelope_addressing_amended.2 pGroup oracleOkUnit rfl rfl (by decide) (by decide)
  rw [show isDirectMessage pGroup.data.channel_name = false from by decide] at h3 h4 h5
  simp only [if_false, Bool.false_eq_true] at h3 h4 h5
  exact ⟨ctx, h1, h2, h3, h4, h5⟩

/-- C9 counterexample: an empty (but present) channel name is classified
direct by the code, while the claim classifies it group (it is neither absent
nor starts with `@`). -/
theorem direct_classification_counterexample :
    isDirectMessage (some "") = true ∧ (some "" : Option String) ≠ none ∧
    jsStartsWith "" "@" = false := by decide

-- C10: bot messages are ignored before any processing

/-- C10: an inbound payload with bot = true produces the empty outcome: no
authorization evaluation, no envelope, no session record, no outbound send. -/
theorem bot_message_noop (p : HandleParams) (o : SendReq → Except String Unit)
    (h : p.data.bot = true) : handleRocketChatMessage p o = {} := by
  unfold handleRocketChatMessage
  by_cases ht : p.data.token = some p.rocketchatConfig.authToken <;> simp [ht, h]

/-- C10 witness: a concrete bot payload is a no-op. -/
theorem bot_message_noop_witness : handleRocketChatMessage pBot oracleOkUnit = {} :=
  bot_message_noop pBot oracleOkUnit rfl

end RocketChat
